import Mathlib

/-!
Verification of the browser client's state reducer for the poker-bot
web application (the zustand `gameStore` and the websocket event handlers).

The data model follows `src/web/src/types.ts`; the reducers follow the
store actions in `src/web/src/store/gameStore.ts`; the event handlers
(`game_state`, `game_state_update`, timer events, thinking events) follow
`src/web/src/hooks/useWebSocket.ts`.

Records keyed by player id (`Record<number, ...>` in TypeScript) are
modelled as functions `Nat → Option _`; `undefined`/`null` fields are
modelled as `Option`; `Date.now()` is passed in as an explicit `now`
argument.
-/

/-- The betting street, `src/web/src/types.ts` `Street`. -/
inductive Street where
  | preflop | flop | turn | river | showdown
deriving DecidableEq, Repr

/-- Action kinds, `src/web/src/types.ts` `ActionType`. -/
inductive ActionType where
  | fold | check | call | raise | all_in
deriving DecidableEq, Repr

/-- A playing card, `src/web/src/types.ts` `Card`. -/
structure Card where
  rank : String
  suit : String
deriving DecidableEq, Repr

/-- A parsed move, `src/web/src/types.ts` `ParsedAction`. -/
structure ParsedAction where
  action_type : ActionType
  amount : Option Int := none
deriving DecidableEq, Repr

/-- Whether a player slot is the human or an LLM. -/
inductive PlayerType where
  | human | llm
deriving DecidableEq, Repr

/-- Per-slot player state, `src/web/src/types.ts` `PlayerState`. -/
@[ext]
structure PlayerState where
  id : Nat
  name : String
  player_type : PlayerType
  model : Option String := none
  stack : Int
  current_bet : Int
  hole_cards : Option (List Card) := none
  is_active : Bool
  is_busted : Bool
  last_action : Option String := none
deriving DecidableEq, Repr

/-- The legal-move menu for the human, `src/web/src/types.ts` `AvailableActions`. -/
structure AvailableActions where
  can_fold : Bool
  can_check : Bool
  can_call : Bool
  call_amount : Int
  can_raise : Bool
  min_raise : Int
  max_raise : Int
deriving DecidableEq, Repr

/-- The full game snapshot, `src/web/src/types.ts` `GameState`. -/
@[ext]
structure GameState where
  session_id : String
  hand_number : Nat
  street : Street
  pot : Int
  community_cards : List Card
  button_position : Nat
  current_actor : Option Nat
  players : List PlayerState
  available_actions : Option AvailableActions := none
deriving DecidableEq, Repr

/-- One actor's live reasoning accumulator, `src/web/src/types.ts` `ThinkingStream`. -/
structure ThinkingStream where
  playerId : Nat
  isActive : Bool
  tokens : String
  parsedAction : Option ParsedAction := none
  startTime : Nat
deriving DecidableEq, Repr

/-- One archived reasoning trace, `src/web/src/types.ts` `ReasoningEntry`. -/
structure ReasoningEntry where
  handNumber : Nat
  street : Street
  tokens : String
  parsedAction : Option ParsedAction := none
  timestamp : Nat
deriving DecidableEq, Repr

/-- Per-player reasoning history, `src/web/src/types.ts` `PlayerReasoningHistory`. -/
structure PlayerReasoningHistory where
  playerId : Nat
  playerName : String
  entries : List ReasoningEntry
  isExpanded : Bool
deriving DecidableEq, Repr

/-- Countdown state, `src/web/src/types.ts` `TurnTimerState`. -/
structure TurnTimerState where
  playerId : Nat
  totalSeconds : Nat
  remainingSeconds : Nat
  isExpired : Bool
deriving DecidableEq, Repr

/-- Showdown result banner state, `gameStore.ts` `HandCompleteInfo`. -/
structure HandCompleteInfo where
  winners : List Nat
  amounts : List Int
  revealedCards : Nat → Option (List Card)
  isVisible : Bool

/-- The whole client store, `gameStore.ts` `GameStore` (state fields only). -/
@[ext]
structure ClientState where
  sessionId : Option String := none
  isConnected : Bool := false
  connectionError : Option String := none
  gameState : Option GameState := none
  thinkingStreams : Nat → Option ThinkingStream := fun _ => none
  reasoningHistory : Nat → Option PlayerReasoningHistory := fun _ => none
  timer : Option TurnTimerState := none
  handComplete : Option HandCompleteInfo := none
  isMyTurn : Bool := false
  availableActions : Option AvailableActions := none
  lastActions : List (Option String) := []

/-- The payload of a `game_state_update` event, `types.ts` `GameStateUpdateEvent`
(without the discriminant tag). -/
structure GameStateUpdate where
  hand_number : Nat
  street : Street
  pot : Int
  current_actor : Option Nat
  community_cards : List Card
  player_stacks : List Int
  player_bets : List Int
  last_actions : List (Option String)
  available_actions : Option AvailableActions := none
deriving DecidableEq, Repr

/-- Store action `setGameState`: install a full snapshot, recompute the
my-turn flag from `current_actor === 0`, and take the snapshot's available
actions (`state.available_actions || null`). -/
def setGameState (state : GameState) (s : ClientState) : ClientState :=
  { s with
    gameState := some state
    isMyTurn := state.current_actor == some 0
    availableActions := state.available_actions }

/-- The per-player merge performed inside `updateGameState`: overwrite
stack, bet and last action from the delta arrays when present at this
index (`update.player_stacks[idx] ?? player.stack`, etc.). -/
def mergePlayer (update : GameStateUpdate) (idx : Nat) (player : PlayerState) : PlayerState :=
  { player with
    stack := (update.player_stacks.get? idx).getD player.stack
    current_bet := (update.player_bets.get? idx).getD player.current_bet
    last_action :=
      match update.last_actions.get? idx with
      | some (some a) => some a
      | _ => player.last_action }

/-- Index-aware map, as done by `players.map((player, idx) => ...)`. -/
def mapFromIdx (f : Nat → PlayerState → PlayerState) : Nat → List PlayerState → List PlayerState
  | _, [] => []
  | i, p :: ps => f i p :: mapFromIdx f (i + 1) ps

/-- Store action `updateGameState`: merge a delta into the held game state;
a delta arriving while no game state is held returns the state unchanged. -/
def updateGameState (update : GameStateUpdate) (s : ClientState) : ClientState :=
  match s.gameState with
  | none => s
  | some gs =>
    let updatedPlayers := mapFromIdx (mergePlayer update) 0 gs.players
    { s with
      gameState := some
        { gs with
          hand_number := update.hand_number
          street := update.street
          pot := update.pot
          current_actor := update.current_actor
          community_cards := update.community_cards
          players := updatedPlayers
          available_actions := update.available_actions }
      isMyTurn := update.current_actor == some 0
      availableActions := update.available_actions
      lastActions := update.last_actions }

/-- Store action `setMyTurn`. -/
def setMyTurn (myTurn : Bool) (actions : Option AvailableActions) (s : ClientState) : ClientState :=
  { s with isMyTurn := myTurn, availableActions := actions }

/-- Store action `startThinking`: install a fresh empty accumulator for
the player and make sure a reasoning-history record exists. -/
def startThinking (playerId : Nat) (playerName : String) (now : Nat)
    (s : ClientState) : ClientState :=
  let updatedHistory := (s.reasoningHistory playerId).getD
    { playerId := playerId, playerName := playerName, entries := [], isExpanded := true }
  { s with
    thinkingStreams := fun k =>
      if k = playerId then
        some { playerId := playerId, isActive := true, tokens := "", startTime := now }
      else s.thinkingStreams k
    reasoningHistory := fun k =>
      if k = playerId then some updatedHistory else s.reasoningHistory k }

/-- Store action `addThinkingToken`: append to the player's accumulator,
dropping the token when no accumulator exists. -/
def addThinkingToken (playerId : Nat) (token : String) (s : ClientState) : ClientState :=
  match s.thinkingStreams playerId with
  | none => s
  | some stream =>
    { s with
      thinkingStreams := fun k =>
        if k = playerId then some { stream with tokens := stream.tokens ++ token }
        else s.thinkingStreams k }

/-- Store action `completeThinking`: freeze the player's accumulator,
record the parsed action, and archive the trace into the history. -/
def completeThinking (playerId : Nat) (action : ParsedAction) (now : Nat)
    (s : ClientState) : ClientState :=
  match s.thinkingStreams playerId with
  | none => s
  | some stream =>
    let newEntry : ReasoningEntry :=
      { handNumber := (s.gameState.map GameState.hand_number).getD 0
        street := (s.gameState.map GameState.street).getD Street.preflop
        tokens := stream.tokens
        parsedAction := some action
        timestamp := now }
    let updatedHistory :=
      match s.reasoningHistory playerId with
      | some playerHistory =>
        { playerHistory with entries := playerHistory.entries ++ [newEntry] }
      | none =>
        { playerId := playerId, playerName := "Player " ++ toString playerId,
          entries := [newEntry], isExpanded := true }
    { s with
      thinkingStreams := fun k =>
        if k = playerId then some { stream with isActive := false, parsedAction := some action }
        else s.thinkingStreams k
      reasoningHistory := fun k =>
        if k = playerId then some updatedHistory else s.reasoningHistory k }

/-- Store action `clearThinking`. -/
def clearThinking (playerId : Nat) (s : ClientState) : ClientState :=
  { s with
    thinkingStreams := fun k => if k = playerId then none else s.thinkingStreams k }

/-- Store action `clearAllThinking`. -/
def clearAllThinking (s : ClientState) : ClientState :=
  { s with thinkingStreams := fun _ => none }

/-- Store action `startTimer`. -/
def startTimer (playerId : Nat) (totalSeconds : Nat) (s : ClientState) : ClientState :=
  { s with
    timer := some
      { playerId := playerId, totalSeconds := totalSeconds,
        remainingSeconds := totalSeconds, isExpired := false } }

/-- Store action `updateTimer`. -/
def updateTimer (remainingSeconds : Nat) (s : ClientState) : ClientState :=
  match s.timer with
  | none => s
  | some t => { s with timer := some { t with remainingSeconds := remainingSeconds } }

/-- Store action `expireTimer`: marks the timer expired and also drops the
my-turn flag. -/
def expireTimer (s : ClientState) : ClientState :=
  match s.timer with
  | none => s
  | some t =>
    { s with
      timer := some { t with isExpired := true, remainingSeconds := 0 }
      isMyTurn := false }

/-- Store action `clearTimer`. -/
def clearTimer (s : ClientState) : ClientState :=
  { s with timer := none }

/-- The websocket `game_state` case in `useWebSocket.ts`: install the
snapshot, then clear every thinking stream. -/
def handleGameState (state : GameState) (s : ClientState) : ClientState :=
  clearAllThinking (setGameState state s)

/-- A finite token sequence for one actor, applied in delivery order. -/
def applyTokens (playerId : Nat) (toks : List String) (s : ClientState) : ClientState :=
  toks.foldl (fun st t => addThinkingToken playerId t st) s

/-! Concrete sample values used by counterexamples and witnesses. -/

/-- A sample card. -/
def exCard : Card := { rank := "A", suit := "s" }

/-- A sample legal-move menu. -/
def exAvail : AvailableActions :=
  { can_fold := true, can_check := false, can_call := true, call_amount := 10,
    can_raise := true, min_raise := 20, max_raise := 180 }

/-- The human slot. -/
def exPlayer0 : PlayerState :=
  { id := 0, name := "You", player_type := PlayerType.human, stack := 200,
    current_bet := 0, is_active := true, is_busted := false }

/-- An LLM slot. -/
def exPlayer1 : PlayerState :=
  { id := 1, name := "Bot", player_type := PlayerType.llm, model := some "llama3",
    stack := 180, current_bet := 10, hole_cards := some [exCard],
    is_active := true, is_busted := false, last_action := some "raise" }

/-- A sample full snapshot whose current actor is slot 1 (not the human). -/
def exSnapshot : GameState :=
  { session_id := "s-1", hand_number := 3, street := Street.flop, pot := 30,
    community_cards := [exCard], button_position := 1, current_actor := some 1,
    players := [exPlayer0, exPlayer1] }

/-- A running countdown for the human slot. -/
def exTimer : TurnTimerState :=
  { playerId := 0, totalSeconds := 30, remainingSeconds := 12, isExpired := false }

/-- A live accumulator for slot 1. -/
def exStream : ThinkingStream :=
  { playerId := 1, isActive := true, tokens := "I think", startTime := 5 }

/-- A client state holding a snapshot, a running timer, the my-turn flag,
and one live accumulator for slot 1. -/
def exStateWithTimer : ClientState :=
  { gameState := some exSnapshot, timer := some exTimer, isMyTurn := true,
    availableActions := some exAvail,
    thinkingStreams := fun k => if k = 1 then some exStream else none }

/-- A sample delta whose current actor is the human slot 0. -/
def exUpdate : GameStateUpdate :=
  { hand_number := 3, street := Street.turn, pot := 60, current_actor := some 0,
    community_cards := [exCard, exCard], player_stacks := [190, 170],
    player_bets := [10, 10], last_actions := [some "call", some "raise"],
    available_actions := some exAvail }

/-- The store's initial state: no game state, no timer, no accumulators. -/
def exEmptyState : ClientState := {}

/-- A sample parsed move. -/
def exCallAction : ParsedAction := { action_type := ActionType.call, amount := some 10 }

/-! Helper lemmas about the indexed player merge. -/

/-- Projections untouched by an index-aware map are preserved listwise. -/
theorem mapFromIdx_map_eq {α : Type} (f : Nat → PlayerState → PlayerState)
    (g : PlayerState → α) (hfg : ∀ i p, g (f i p) = g p) :
    ∀ (i : Nat) (l : List PlayerState), (mapFromIdx f i l).map g = l.map g := by
  intro i l
  induction l generalizing i with
  | nil => rfl
  | cons p ps ih => simp [mapFromIdx, hfg, ih]

/-- Merging the same delta into a player twice is the same as once. -/
theorem mergePlayer_idem (u : GameStateUpdate) (i : Nat) (p : PlayerState) :
    mergePlayer u i (mergePlayer u i p) = mergePlayer u i p := by
  unfold mergePlayer
  rcases h1 : u.player_stacks.get? i with _ | v1 <;>
  rcases h2 : u.player_bets.get? i with _ | v2 <;>
  rcases h3 : u.last_actions.get? i with _ | (_ | a) <;>
  simp [h1, h2, h3]

/-- A pointwise idempotent index-aware map is idempotent listwise. -/
theorem mapFromIdx_idem (f : Nat → PlayerState → PlayerState)
    (hf : ∀ i p, f i (f i p) = f i p) :
    ∀ (i : Nat) (l : List PlayerState), mapFromIdx f i (mapFromIdx f i l) = mapFromIdx f i l := by
  intro i l
  induction l generalizing i with
  | nil => rfl
  | cons p ps ih => simp [mapFromIdx, hf, ih]

/-! Claim theorems. -/

/-- C1 (counterexample): the `game_state` handler does not clear the timer:
on a state holding a running timer, the timer survives the handler. -/
theorem handleGameState_timer_not_cleared :
    (handleGameState exSnapshot exStateWithTimer).timer ≠ none := by
  decide

/-- C1 (amended): the `game_state` handler replaces the stored game state
with the event's snapshot and clears every reasoning accumulator, but it
leaves the timer state unchanged rather than clearing it. -/
theorem handleGameState_replaces_state (state : GameState) (s : ClientState) :
    (handleGameState state s).gameState = some state ∧
    (∀ q, (handleGameState state s).thinkingStreams q = none) ∧
    (handleGameState state s).timer = s.timer :=
  ⟨rfl, fun _ => rfl, rfl⟩

/-- C2 (counterexample): `timer_expired` does not leave the my-turn flag
unchanged: on a state with a running timer and the my-turn flag set, the
handler clears the flag. -/
theorem expireTimer_changes_myTurn :
    (expireTimer exStateWithTimer).isMyTurn ≠ exStateWithTimer.isMyTurn := by
  decide

/-- C2 (amended): `timer_start` and `timer_tick` leave the my-turn flag, the
available actions and the game state unchanged; `timer_expired` leaves the
available actions and the game state unchanged and is a no-op without a
timer, but with a timer present it forces the my-turn flag to false. -/
theorem timer_events_frame (s : ClientState) (p total remaining : Nat) :
    (startTimer p total s).isMyTurn = s.isMyTurn ∧
    (startTimer p total s).availableActions = s.availableActions ∧
    (startTimer p total s).gameState = s.gameState ∧
    (updateTimer remaining s).isMyTurn = s.isMyTurn ∧
    (updateTimer remaining s).availableActions = s.availableActions ∧
    (updateTimer remaining s).gameState = s.gameState ∧
    (expireTimer s).availableActions = s.availableActions ∧
    (expireTimer s).gameState = s.gameState ∧
    (s.timer = none → expireTimer s = s) ∧
    (s.timer ≠ none → (expireTimer s).isMyTurn = false) := by
  cases h : s.timer <;>
    simp [startTimer, updateTimer, expireTimer, h]

/-- C2 (witness): the amended statement evaluated on concrete states, both
with and without a running timer. -/
theorem timer_events_frame_witness :
    (expireTimer exStateWithTimer).isMyTurn = false ∧
    expireTimer exEmptyState = exEmptyState ∧
    (startTimer 1 30 exStateWithTimer).gameState = exStateWithTimer.gameState := by
  obtain ⟨-, -, a3, -, -, -, -, -, -, a10⟩ := timer_events_frame exStateWithTimer 1 30 7
  obtain ⟨-, -, -, -, -, -, -, -, b9, -⟩ := timer_events_frame exEmptyState 1 30 7
  exact ⟨a10 (by decide), b9 rfl, a3⟩

/-- C9: a delta arriving while the client holds no game state is dropped
atomically: the reducer returns the state unchanged. -/
theorem updateGameState_noop_of_no_gameState (u : GameStateUpdate) (s : ClientState)
    (h : s.gameState = none) : updateGameState u s = s := by
  simp [updateGameState, h]

/-- C9 (witness): the drop evaluated on the initial state and a concrete delta. -/
theorem updateGameState_noop_witness :
    exEmptyState.gameState = none ∧ updateGameState exUpdate exEmptyState = exEmptyState :=
  ⟨rfl, updateGameState_noop_of_no_gameState exUpdate exEmptyState rfl⟩

/-- C10: a token event and a complete event addressed at an actor with no
accumulator are silent no-ops: the reducers return the state unchanged. -/
theorem thinking_events_noop_of_no_stream (playerId : Nat) (token : String)
    (action : ParsedAction) (now : Nat) (s : ClientState)
    (h : s.thinkingStreams playerId = none) :
    addThinkingToken playerId token s = s ∧ completeThinking playerId action now s = s := by
  constructor <;> simp [addThinkingToken, completeThinking, h]

/-- C10 (witness): the no-ops evaluated at slot 2 of a concrete state with
no accumulator for slot 2. -/
theorem thinking_events_noop_witness :
    exStateWithTimer.thinkingStreams 2 = none ∧
    addThinkingToken 2 "x" exStateWithTimer = exStateWithTimer ∧
    completeThinking 2 { action_type := ActionType.fold } 9 exStateWithTimer = exStateWithTimer :=
  ⟨rfl,
   (thinking_events_noop_of_no_stream 2 "x" { action_type := ActionType.fold } 9
     exStateWithTimer rfl).1,
   (thinking_events_noop_of_no_stream 2 "x" { action_type := ActionType.fold } 9
     exStateWithTimer rfl).2⟩

/-- C7: a complete event on an actor with a live accumulator keeps the
accumulated text, drops the active flag, and records the parsed move. -/
theorem completeThinking_freezes (playerId : Nat) (action : ParsedAction) (now : Nat)
    (s : ClientState) (stream : ThinkingStream)
    (h : s.thinkingStreams playerId = some stream) :
    (completeThinking playerId action now s).thinkingStreams playerId =
      some { stream with isActive := false, parsedAction := some action } := by
  simp [completeThinking, h]

/-- C7 (witness): freezing evaluated on a concrete state with a live
accumulator for slot 1. -/
theorem completeThinking_freezes_witness :
    exStateWithTimer.thinkingStreams 1 = some exStream ∧
    (completeThinking 1 exCallAction 9 exStateWithTimer).thinkingStreams 1 =
      some { exStream with isActive := false, parsedAction := some exCallAction } :=
  ⟨rfl, completeThinking_freezes 1 exCallAction 9 exStateWithTimer exStream rfl⟩

/-- C3: token accumulation is lossless and order-preserving: applying a
finite token sequence for one actor in delivery order appends exactly the
payloads, in order, to that actor's accumulator, and leaves every other
actor's accumulator untouched. -/
theorem applyTokens_appends (playerId : Nat) (toks : List String) :
    ∀ (s : ClientState) (stream : ThinkingStream),
      s.thinkingStreams playerId = some stream →
      (applyTokens playerId toks s).thinkingStreams playerId =
        some { stream with tokens := toks.foldl (fun acc t => acc ++ t) stream.tokens } ∧
      ∀ q, q ≠ playerId →
        (applyTokens playerId toks s).thinkingStreams q = s.thinkingStreams q := by
  induction toks with
  | nil =>
    intro s stream h
    exact ⟨h, fun _ _ => rfl⟩
  | cons t ts ih =>
    intro s stream h
    have hstep : (addThinkingToken playerId t s).thinkingStreams playerId =
        some { stream with tokens := stream.tokens ++ t } := by
      simp [addThinkingToken, h]
    obtain ⟨h1, h2⟩ := ih (addThinkingToken playerId t s)
      { stream with tokens := stream.tokens ++ t } hstep
    refine ⟨h1, fun q hq => ?_⟩
    have hframe : (addThinkingToken playerId t s).thinkingStreams q =
        s.thinkingStreams q := by
      simp [addThinkingToken, h, hq]
    calc (applyTokens playerId (t :: ts) s).thinkingStreams q
        = (addThinkingToken playerId t s).thinkingStreams q := h2 q hq
      _ = s.thinkingStreams q := hframe

/-- C3 (witness): two tokens applied to the live accumulator of slot 1 of a
concrete state; slot 0 is untouched. -/
theorem applyTokens_appends_witness :
    exStateWithTimer.thinkingStreams 1 = some exStream ∧
    (applyTokens 1 ["ab", "c"] exStateWithTimer).thinkingStreams 1 =
      some { exStream with
             tokens := (["ab", "c"]).foldl (fun acc t => acc ++ t) exStream.tokens } ∧
    (applyTokens 1 ["ab", "c"] exStateWithTimer).thinkingStreams 0 =
      exStateWithTimer.thinkingStreams 0 :=
  ⟨rfl,
   (applyTokens_appends 1 ["ab", "c"] exStateWithTimer exStream rfl).1,
   (applyTokens_appends 1 ["ab", "c"] exStateWithTimer exStream rfl).2 0 (by decide)⟩

/-- C6 (counterexample): a delta whose current actor is the human slot 0,
processed while the client holds no game state, is dropped, so the my-turn
flag stays false although the event's current actor is 0. -/
theorem myTurn_iff_counterexample :
    ¬(((updateGameState exUpdate exEmptyState).isMyTurn = true) ↔
        exUpdate.current_actor = some 0) := by
  decide

/-- C6 (amended): after a full-state event, and after a delta event
processed while a game state is held, the my-turn flag is true exactly when
the event's current actor is the human slot 0. -/
theorem myTurn_iff_current_actor_zero (state : GameState) (u : GameStateUpdate)
    (s : ClientState) :
    ((setGameState state s).isMyTurn = true ↔ state.current_actor = some 0) ∧
    (s.gameState ≠ none →
      ((updateGameState u s).isMyTurn = true ↔ u.current_actor = some 0)) := by
  constructor
  · simp [setGameState]
  · intro h
    cases hg : s.gameState with
    | none => exact absurd hg h
    | some gs => simp [updateGameState, hg]

/-- C6 (witness): the equivalence evaluated on a concrete snapshot whose
current actor is slot 1 and a concrete delta whose current actor is slot 0,
applied to a state holding a game state. -/
theorem myTurn_iff_witness :
    ((setGameState exSnapshot exEmptyState).isMyTurn = true ↔
      exSnapshot.current_actor = some 0) ∧
    ((updateGameState exUpdate exStateWithTimer).isMyTurn = true ↔
      exUpdate.current_actor = some 0) :=
  ⟨(myTurn_iff_current_actor_zero exSnapshot exUpdate exEmptyState).1,
   (myTurn_iff_current_actor_zero exSnapshot exUpdate exStateWithTimer).2 (by decide)⟩

/-- C8: a start event installs an empty accumulator for the actor (empty
text, active, no parsed action), and starting twice is the same as starting
once, the recorded start timestamps aside (the later application's
timestamp wins). -/
theorem startThinking_init_and_idem (playerId : Nat) (playerName : String)
    (t₁ t₂ : Nat) (s : ClientState) :
    (startThinking playerId playerName t₁ s).thinkingStreams playerId =
      some { playerId := playerId, isActive := true, tokens := "",
             parsedAction := none, startTime := t₁ } ∧
    startThinking playerId playerName t₂ (startThinking playerId playerName t₁ s) =
      startThinking playerId playerName t₂ s := by
  constructor
  · simp [startThinking]
  · ext : 1 <;> simp only [startThinking] <;> funext k <;> by_cases hk : k = playerId <;>
      simp [hk]

/-- C4: the delta merge is idempotent: applying the same delta twice yields
the same client state as applying it once (on every client state, whether
or not a game state is held). -/
theorem updateGameState_idem (u : GameStateUpdate) (s : ClientState) :
    updateGameState u (updateGameState u s) = updateGameState u s := by
  cases hg : s.gameState with
  | none => simp [updateGameState, hg]
  | some gs =>
    simp only [updateGameState, hg]
    ext : 1 <;>
      simp [mapFromIdx_idem (mergePlayer u) (mergePlayer_idem u)]

/-- C5: a delta merges only the fields it carries: the session id, the
button position, and each player's id, name, type, model, hole cards,
active flag and busted flag survive the merge unchanged. -/
theorem updateGameState_frame (u : GameStateUpdate) (s : ClientState) (gs : GameState)
    (h : s.gameState = some gs) :
    ((updateGameState u s).gameState.map GameState.session_id) = some gs.session_id ∧
    ((updateGameState u s).gameState.map GameState.button_position) =
      some gs.button_position ∧
    ((updateGameState u s).gameState.map (fun g => g.players.map PlayerState.id)) =
      some (gs.players.map PlayerState.id) ∧
    ((updateGameState u s).gameState.map (fun g => g.players.map PlayerState.name)) =
      some (gs.players.map PlayerState.name) ∧
    ((updateGameState u s).gameState.map (fun g => g.players.map PlayerState.player_type)) =
      some (gs.players.map PlayerState.player_type) ∧
    ((updateGameState u s).gameState.map (fun g => g.players.map PlayerState.model)) =
      some (gs.players.map PlayerState.model) ∧
    ((updateGameState u s).gameState.map (fun g => g.players.map PlayerState.hole_cards)) =
      some (gs.players.map PlayerState.hole_cards) ∧
    ((updateGameState u s).gameState.map (fun g => g.players.map PlayerState.is_active)) =
      some (gs.players.map PlayerState.is_active) ∧
    ((updateGameState u s).gameState.map (fun g => g.players.map PlayerState.is_busted)) =
      some (gs.players.map PlayerState.is_busted) := by
  have hmap : ∀ {α : Type} (g : PlayerState → α), (∀ i p, g (mergePlayer u i p) = g p) →
      (mapFromIdx (mergePlayer u) 0 gs.players).map g = gs.players.map g :=
    fun g hg => mapFromIdx_map_eq (mergePlayer u) g hg 0 gs.players
  have hgs : (updateGameState u s).gameState = some
      { gs with
        hand_number := u.hand_number, street := u.street, pot := u.pot,
        current_actor := u.current_actor, community_cards := u.community_cards,
        players := mapFromIdx (mergePlayer u) 0 gs.players,
        available_actions := u.available_actions } := by
    simp [updateGameState, h]
  refine ⟨?_, ?_, ?_, ?_, ?_, ?_, ?_, ?_, ?_⟩ <;> rw [hgs]
  · rfl
  · rfl
  · exact congrArg some (hmap PlayerState.id fun i p => rfl)
  · exact congrArg some (hmap PlayerState.name fun i p => rfl)
  · exact congrArg some (hmap PlayerState.player_type fun i p => rfl)
  · exact congrArg some (hmap PlayerState.model fun i p => rfl)
  · exact congrArg some (hmap PlayerState.hole_cards fun i p => rfl)
  · exact congrArg some (hmap PlayerState.is_active fun i p => rfl)
  · exact congrArg some (hmap PlayerState.is_busted fun i p => rfl)

/-- C5 (witness): the frame evaluated on a concrete state and delta. -/
theorem updateGameState_frame_witness :
    exStateWithTimer.gameState = some exSnapshot ∧
    ((updateGameState exUpdate exStateWithTimer).gameState.map GameState.session_id) =
      some exSnapshot.session_id ∧
    ((updateGameState exUpdate exStateWithTimer).gameState.map
        (fun g => g.players.map PlayerState.hole_cards)) =
      some (exSnapshot.players.map PlayerState.hole_cards) :=
  ⟨rfl,
   (updateGameState_frame exUpdate exStateWithTimer exSnapshot rfl).1,
   (updateGameState_frame exUpdate exStateWithTimer exSnapshot rfl).2.2.2.2.2.2.1⟩
